import Mathlib

/-!
Shallow embedding of the AWS IoT Device Defender topic codec
(`source/defender.c`, `source/include/defender.h`).

Strings are modelled as `List Char`; the caller-supplied buffers and the
output slots of the C functions are modelled by explicit state passing:
a nullable pointer argument becomes an `Option`, an out-parameter slot
becomes an input (its initial value) plus a field of the result record
(its final value).
-/

set_option maxRecDepth 40000

/-- Status codes of the library (`DefenderStatus_t` in `defender.h`). -/
inductive DefenderStatus where
  | DefenderSuccess
  | DefenderNoMatch
  | DefenderBadParameter
  | DefenderBufferTooSmall
deriving DecidableEq

/-- Topic variants (`DefenderTopic_t` in `defender.h`), including the
`DefenderInvalidTopic = -1` sentinel and the `DefenderMaxTopic` bound. -/
inductive DefenderTopic where
  | DefenderInvalidTopic
  | DefenderJsonReportPublish
  | DefenderJsonReportAccepted
  | DefenderJsonReportRejected
  | DefenderCborReportPublish
  | DefenderCborReportAccepted
  | DefenderCborReportRejected
  | DefenderMaxTopic
deriving DecidableEq

/-- The integer value of each `DefenderTopic_t` enumerator
(`DefenderInvalidTopic = -1`, then consecutive values). -/
def DefenderTopic.toInt : DefenderTopic → Int
  | DefenderTopic.DefenderInvalidTopic => -1
  | DefenderTopic.DefenderJsonReportPublish => 0
  | DefenderTopic.DefenderJsonReportAccepted => 1
  | DefenderTopic.DefenderJsonReportRejected => 2
  | DefenderTopic.DefenderCborReportPublish => 3
  | DefenderTopic.DefenderCborReportAccepted => 4
  | DefenderTopic.DefenderCborReportRejected => 5
  | DefenderTopic.DefenderMaxTopic => 6

/-- The validity test used throughout the C code:
`( api > DefenderInvalidTopic ) && ( api < DefenderMaxTopic )`. -/
def DefenderTopic.isValid (api : DefenderTopic) : Bool :=
  decide (DefenderTopic.toInt DefenderTopic.DefenderInvalidTopic < api.toInt) &&
  decide (api.toInt < DefenderTopic.toInt DefenderTopic.DefenderMaxTopic)

/-- The string constant `DEFENDER_API_PREFIX` = `"$aws/things/"`. -/
def DEFENDER_API_PREFIX_CHARS : List Char := "$aws/things/".toList

/-- Constant `DEFENDER_API_PREFIX_LENGTH` (12). -/
def DEFENDER_API_PREFIX_LENGTH : Nat := DEFENDER_API_PREFIX_CHARS.length

/-- The string constant `DEFENDER_API_BRIDGE` = `"/defender/metrics/"`. -/
def DEFENDER_API_BRIDGE : List Char := "/defender/metrics/".toList

/-- Constant `DEFENDER_API_BRIDGE_LENGTH` (18). -/
def DEFENDER_API_BRIDGE_LENGTH : Nat := DEFENDER_API_BRIDGE.length

/-- Constant `DEFENDER_API_JSON_REPORT_FORMAT` = `"json"`. -/
def DEFENDER_API_JSON_REPORT_FORMAT : List Char := "json".toList

/-- Constant `DEFENDER_API_JSON_REPORT_FORMAT_LENGTH` (4). -/
def DEFENDER_API_JSON_REPORT_FORMAT_LENGTH : Nat := DEFENDER_API_JSON_REPORT_FORMAT.length

/-- Constant `DEFENDER_API_CBOR_REPORT_FORMAT` = `"cbor"`. -/
def DEFENDER_API_CBOR_REPORT_FORMAT : List Char := "cbor".toList

/-- Constant `DEFENDER_API_CBOR_REPORT_FORMAT_LENGTH` (4). -/
def DEFENDER_API_CBOR_REPORT_FORMAT_LENGTH : Nat := DEFENDER_API_CBOR_REPORT_FORMAT.length

/-- Constant `DEFENDER_API_ACCEPTED_SUFFIX` = `"/accepted"`. -/
def DEFENDER_API_ACCEPTED_SUFFIX : List Char := "/accepted".toList

/-- Constant `DEFENDER_API_ACCEPTED_SUFFIX_LENGTH` (9). -/
def DEFENDER_API_ACCEPTED_SUFFIX_LENGTH : Nat := DEFENDER_API_ACCEPTED_SUFFIX.length

/-- Constant `DEFENDER_API_REJECTED_SUFFIX` = `"/rejected"`. -/
def DEFENDER_API_REJECTED_SUFFIX : List Char := "/rejected".toList

/-- Constant `DEFENDER_API_REJECTED_SUFFIX_LENGTH` (9). -/
def DEFENDER_API_REJECTED_SUFFIX_LENGTH : Nat := DEFENDER_API_REJECTED_SUFFIX.length

/-- Constant `DEFENDER_API_NULL_SUFFIX_LENGTH` (0). -/
def DEFENDER_API_NULL_SUFFIX_LENGTH : Nat := 0

/-- Constant `DEFENDER_THINGNAME_MAX_LENGTH` (128). -/
def DEFENDER_THINGNAME_MAX_LENGTH : Nat := 128

/-- The macro `DEFENDER_API_COMMON_LENGTH( thingNameLength, reportFormatLength, suffixLength )`. -/
def DEFENDER_API_COMMON_LENGTH (thingNameLength reportFormatLength suffixLength : Nat) : Nat :=
  DEFENDER_API_PREFIX_LENGTH + thingNameLength + DEFENDER_API_BRIDGE_LENGTH +
    reportFormatLength + suffixLength

/-- The macro `DEFENDER_API_JSON_REPORT_PUBLISH_LENGTH( thingNameLength )`. -/
def DEFENDER_API_JSON_REPORT_PUBLISH_LENGTH (thingNameLength : Nat) : Nat :=
  DEFENDER_API_COMMON_LENGTH thingNameLength DEFENDER_API_JSON_REPORT_FORMAT_LENGTH
    DEFENDER_API_NULL_SUFFIX_LENGTH

/-- The macro `DEFENDER_API_JSON_REPORT_ACCEPTED_LENGTH( thingNameLength )`. -/
def DEFENDER_API_JSON_REPORT_ACCEPTED_LENGTH (thingNameLength : Nat) : Nat :=
  DEFENDER_API_COMMON_LENGTH thingNameLength DEFENDER_API_JSON_REPORT_FORMAT_LENGTH
    DEFENDER_API_ACCEPTED_SUFFIX_LENGTH

/-- The macro `DEFENDER_API_JSON_REPORT_REJECTED_LENGTH( thingNameLength )`. -/
def DEFENDER_API_JSON_REPORT_REJECTED_LENGTH (thingNameLength : Nat) : Nat :=
  DEFENDER_API_COMMON_LENGTH thingNameLength DEFENDER_API_JSON_REPORT_FORMAT_LENGTH
    DEFENDER_API_REJECTED_SUFFIX_LENGTH

/-- The macro `DEFENDER_API_CBOR_REPORT_PUBLISH_LENGTH( thingNameLength )`. -/
def DEFENDER_API_CBOR_REPORT_PUBLISH_LENGTH (thingNameLength : Nat) : Nat :=
  DEFENDER_API_COMMON_LENGTH thingNameLength DEFENDER_API_CBOR_REPORT_FORMAT_LENGTH
    DEFENDER_API_NULL_SUFFIX_LENGTH

/-- The macro `DEFENDER_API_CBOR_REPORT_ACCEPTED_LENGTH( thingNameLength )`. -/
def DEFENDER_API_CBOR_REPORT_ACCEPTED_LENGTH (thingNameLength : Nat) : Nat :=
  DEFENDER_API_COMMON_LENGTH thingNameLength DEFENDER_API_CBOR_REPORT_FORMAT_LENGTH
    DEFENDER_API_ACCEPTED_SUFFIX_LENGTH

/-- The macro `DEFENDER_API_CBOR_REPORT_REJECTED_LENGTH( thingNameLength )`. -/
def DEFENDER_API_CBOR_REPORT_REJECTED_LENGTH (thingNameLength : Nat) : Nat :=
  DEFENDER_API_COMMON_LENGTH thingNameLength DEFENDER_API_CBOR_REPORT_FORMAT_LENGTH
    DEFENDER_API_REJECTED_SUFFIX_LENGTH

/-- Function `getTopicLength` in `defender.c`: switch over the api, with the C
`default:` fallthrough that shares the `DefenderCborReportRejected` case. -/
def getTopicLength (thingNameLength : Nat) (api : DefenderTopic) : Nat :=
  match api with
  | DefenderTopic.DefenderJsonReportPublish =>
      DEFENDER_API_JSON_REPORT_PUBLISH_LENGTH thingNameLength
  | DefenderTopic.DefenderJsonReportAccepted =>
      DEFENDER_API_JSON_REPORT_ACCEPTED_LENGTH thingNameLength
  | DefenderTopic.DefenderJsonReportRejected =>
      DEFENDER_API_JSON_REPORT_REJECTED_LENGTH thingNameLength
  | DefenderTopic.DefenderCborReportPublish =>
      DEFENDER_API_CBOR_REPORT_PUBLISH_LENGTH thingNameLength
  | DefenderTopic.DefenderCborReportAccepted =>
      DEFENDER_API_CBOR_REPORT_ACCEPTED_LENGTH thingNameLength
  | _ =>
      DEFENDER_API_CBOR_REPORT_REJECTED_LENGTH thingNameLength

/-- Function `writeFormatAndSuffix` in `defender.c`, modelled as the list of bytes the
function writes at the given buffer position (format, then optional suffix);
the C `default:` fallthrough shares the `DefenderCborReportRejected` case. -/
def writeFormatAndSuffix (api : DefenderTopic) : List Char :=
  match api with
  | DefenderTopic.DefenderJsonReportPublish =>
      DEFENDER_API_JSON_REPORT_FORMAT
  | DefenderTopic.DefenderJsonReportAccepted =>
      DEFENDER_API_JSON_REPORT_FORMAT ++ DEFENDER_API_ACCEPTED_SUFFIX
  | DefenderTopic.DefenderJsonReportRejected =>
      DEFENDER_API_JSON_REPORT_FORMAT ++ DEFENDER_API_REJECTED_SUFFIX
  | DefenderTopic.DefenderCborReportPublish =>
      DEFENDER_API_CBOR_REPORT_FORMAT
  | DefenderTopic.DefenderCborReportAccepted =>
      DEFENDER_API_CBOR_REPORT_FORMAT ++ DEFENDER_API_ACCEPTED_SUFFIX
  | _ =>
      DEFENDER_API_CBOR_REPORT_FORMAT ++ DEFENDER_API_REJECTED_SUFFIX

/-- A `memcpy( &buffer[offset], data, data.length )` into a buffer modelled as
a list: bytes `[offset, offset + data.length)` are replaced, the rest kept. -/
def writeAt (buffer : List Char) (offset : Nat) (data : List Char) : List Char :=
  buffer.take offset ++ data ++ buffer.drop (offset + data.length)

/-- Result of `Defender_GetTopic`: the returned status, the final contents of
the caller's buffer (`none` when `pBuffer` was NULL), and the final value of
the `*pOutLength` slot. -/
structure BuildOutput where
  ret : DefenderStatus
  buffer : Option (List Char)
  outLength : Nat
deriving DecidableEq

/-- Function `Defender_GetTopic` in `defender.c`. `pBuffer` and `pThingName` are the
pointed-to bytes (`none` = NULL pointer); `pOutLengthPresent` is whether
`pOutLength` is non-NULL and `outLength0` the initial value of its slot. -/
def Defender_GetTopic (pBuffer : Option (List Char)) (bufferLength : Nat)
    (pThingName : Option (List Char)) (thingNameLength : Nat)
    (api : DefenderTopic) (pOutLengthPresent : Bool) (outLength0 : Nat) : BuildOutput :=
  if pBuffer = none ∨ pThingName = none ∨
     thingNameLength = 0 ∨ DEFENDER_THINGNAME_MAX_LENGTH < thingNameLength ∨
     api.toInt ≤ DefenderTopic.toInt DefenderTopic.DefenderInvalidTopic ∨
     DefenderTopic.toInt DefenderTopic.DefenderMaxTopic ≤ api.toInt ∨
     pOutLengthPresent = false then
    { ret := DefenderStatus.DefenderBadParameter, buffer := pBuffer, outLength := outLength0 }
  else
    let topicLength := getTopicLength thingNameLength api
    if bufferLength < topicLength then
      { ret := DefenderStatus.DefenderBufferTooSmall, buffer := pBuffer, outLength := outLength0 }
    else
      let buffer0 := pBuffer.getD []
      let thingName := pThingName.getD []
      let buffer1 := writeAt buffer0 0 DEFENDER_API_PREFIX_CHARS
      let buffer2 := writeAt buffer1 DEFENDER_API_PREFIX_LENGTH (thingName.take thingNameLength)
      let buffer3 := writeAt buffer2 (DEFENDER_API_PREFIX_LENGTH + thingNameLength)
        DEFENDER_API_BRIDGE
      let buffer4 := writeAt buffer3
        (DEFENDER_API_PREFIX_LENGTH + thingNameLength + DEFENDER_API_BRIDGE_LENGTH)
        (writeFormatAndSuffix api)
      { ret := DefenderStatus.DefenderSuccess, buffer := some buffer4, outLength := topicLength }

/-- Function `matchPrefix` in `defender.c`: the unparsed topic must be at least 12 bytes
long and start with `"$aws/things/"` (the `memcmp` over the first 12 bytes). -/
def matchPrefixStage (remainingTopic : List Char) (remainingTopicLength : Nat) : DefenderStatus :=
  if DEFENDER_API_PREFIX_LENGTH ≤ remainingTopicLength ∧
     remainingTopic.take DEFENDER_API_PREFIX_LENGTH = DEFENDER_API_PREFIX_CHARS then
    DefenderStatus.DefenderSuccess
  else
    DefenderStatus.DefenderNoMatch

/-- Function `extractThingNameLength` in `defender.c`: scan the first
`remainingTopicLength` bytes for the first forward slash; its index is the
thing-name length (the whole scanned range when no slash is found); a zero
thing-name length yields `DefenderNoMatch`, modelled as `none`. -/
def extractThingNameLength (remainingTopic : List Char) (remainingTopicLength : Nat) :
    Option Nat :=
  let i := ((remainingTopic.take remainingTopicLength).takeWhile (fun c => c != '/')).length
  if 0 < i then some i else none

/-- Function `matchBridge` in `defender.c`: the unparsed topic must be at least 18 bytes
long and start with `"/defender/metrics/"`. -/
def matchBridge (remainingTopic : List Char) (remainingTopicLength : Nat) : DefenderStatus :=
  if DEFENDER_API_BRIDGE_LENGTH ≤ remainingTopicLength ∧
     remainingTopic.take DEFENDER_API_BRIDGE_LENGTH = DEFENDER_API_BRIDGE then
    DefenderStatus.DefenderSuccess
  else
    DefenderStatus.DefenderNoMatch

/-- The three parallel tables `defenderApi`, `defenderApiTopic` and
`defenderApiTopicLength` of `defender.c`, zipped entry-wise. -/
def defenderApiTable : List (DefenderTopic × List Char × Nat) :=
  [ (DefenderTopic.DefenderJsonReportPublish,
     DEFENDER_API_JSON_REPORT_FORMAT,
     DEFENDER_API_JSON_REPORT_FORMAT_LENGTH),
    (DefenderTopic.DefenderJsonReportAccepted,
     DEFENDER_API_JSON_REPORT_FORMAT ++ DEFENDER_API_ACCEPTED_SUFFIX,
     DEFENDER_API_JSON_REPORT_FORMAT_LENGTH + DEFENDER_API_ACCEPTED_SUFFIX_LENGTH),
    (DefenderTopic.DefenderJsonReportRejected,
     DEFENDER_API_JSON_REPORT_FORMAT ++ DEFENDER_API_REJECTED_SUFFIX,
     DEFENDER_API_JSON_REPORT_FORMAT_LENGTH + DEFENDER_API_REJECTED_SUFFIX_LENGTH),
    (DefenderTopic.DefenderCborReportPublish,
     DEFENDER_API_CBOR_REPORT_FORMAT,
     DEFENDER_API_CBOR_REPORT_FORMAT_LENGTH),
    (DefenderTopic.DefenderCborReportAccepted,
     DEFENDER_API_CBOR_REPORT_FORMAT ++ DEFENDER_API_ACCEPTED_SUFFIX,
     DEFENDER_API_CBOR_REPORT_FORMAT_LENGTH + DEFENDER_API_ACCEPTED_SUFFIX_LENGTH),
    (DefenderTopic.DefenderCborReportRejected,
     DEFENDER_API_CBOR_REPORT_FORMAT ++ DEFENDER_API_REJECTED_SUFFIX,
     DEFENDER_API_CBOR_REPORT_FORMAT_LENGTH + DEFENDER_API_REJECTED_SUFFIX_LENGTH) ]

/-- The loop body of `matchApi`: try each table entry in order; an entry
matches when the remaining length equals the entry length and the `memcmp`
over that many bytes succeeds. -/
def matchApiAux (table : List (DefenderTopic × List Char × Nat))
    (remainingTopic : List Char) (remainingTopicLength : Nat) : Option DefenderTopic :=
  match table with
  | [] => none
  | (api, s, len) :: rest =>
      if remainingTopicLength = len ∧ remainingTopic.take len = s then
        some api
      else
        matchApiAux rest remainingTopic remainingTopicLength

/-- Function `matchApi` in `defender.c`: first matching entry of the (zipped) tables
wins; `none` models the `DefenderNoMatch` return with `*pOutApi` unwritten. -/
def matchApi (remainingTopic : List Char) (remainingTopicLength : Nat) : Option DefenderTopic :=
  matchApiAux defenderApiTable remainingTopic remainingTopicLength

/-- Result of `Defender_MatchTopic`: the returned status and the final values
of the `*pOutApi`, `*ppOutThingName` (as a byte offset into the topic) and
`*pOutThingNameLength` slots. -/
structure MatchOutput where
  ret : DefenderStatus
  outApi : DefenderTopic
  outThingNameOffset : Nat
  outThingNameLength : Nat
deriving DecidableEq

/-- The output produced by `Defender_MatchTopic` on the `DefenderNoMatch` path:
`*pOutApi` is set to `DefenderInvalidTopic`, the thing-name slots keep their
initial values. -/
def noMatchOutput (outThingNameOffset0 outThingNameLength0 : Nat) : MatchOutput :=
  { ret := DefenderStatus.DefenderNoMatch,
    outApi := DefenderTopic.DefenderInvalidTopic,
    outThingNameOffset := outThingNameOffset0,
    outThingNameLength := outThingNameLength0 }

/-- Function `Defender_MatchTopic` in `defender.c`. `pTopic` is the pointed-to topic
bytes (`none` = NULL); `pOutApiPresent`, `ppOutThingNamePresent` and
`pOutThingNameLengthPresent` tell whether the respective out pointers are
non-NULL, and `outApi0`, `outThingNameOffset0`, `outThingNameLength0` are the
initial values of their slots. -/
def Defender_MatchTopic (pTopic : Option (List Char)) (topicLength : Nat)
    (pOutApiPresent : Bool) (outApi0 : DefenderTopic)
    (ppOutThingNamePresent : Bool) (outThingNameOffset0 : Nat)
    (pOutThingNameLengthPresent : Bool) (outThingNameLength0 : Nat) : MatchOutput :=
  if pTopic = none ∨ pOutApiPresent = false then
    { ret := DefenderStatus.DefenderBadParameter,
      outApi := outApi0,
      outThingNameOffset := outThingNameOffset0,
      outThingNameLength := outThingNameLength0 }
  else
    let topic := pTopic.getD []
    if matchPrefixStage topic topicLength ≠ DefenderStatus.DefenderSuccess then
      noMatchOutput outThingNameOffset0 outThingNameLength0
    else
      let remaining1 := topic.drop DEFENDER_API_PREFIX_LENGTH
      let remainingLength1 := topicLength - DEFENDER_API_PREFIX_LENGTH
      match extractThingNameLength remaining1 remainingLength1 with
      | none => noMatchOutput outThingNameOffset0 outThingNameLength0
      | some thingNameLength =>
        let remaining2 := remaining1.drop thingNameLength
        let remainingLength2 := remainingLength1 - thingNameLength
        if matchBridge remaining2 remainingLength2 ≠ DefenderStatus.DefenderSuccess then
          noMatchOutput outThingNameOffset0 outThingNameLength0
        else
          let remaining3 := remaining2.drop DEFENDER_API_BRIDGE_LENGTH
          let remainingLength3 := remainingLength2 - DEFENDER_API_BRIDGE_LENGTH
          match matchApi remaining3 remainingLength3 with
          | none => noMatchOutput outThingNameOffset0 outThingNameLength0
          | some api =>
            { ret := DefenderStatus.DefenderSuccess,
              outApi := api,
              outThingNameOffset :=
                if ppOutThingNamePresent then DEFENDER_API_PREFIX_LENGTH
                else outThingNameOffset0,
              outThingNameLength :=
                if pOutThingNameLengthPresent then thingNameLength
                else outThingNameLength0 }

/-! ### Numeric values of the string-length constants -/

theorem prefixLength_eq : DEFENDER_API_PREFIX_LENGTH = 12 := rfl

theorem bridgeLength_eq : DEFENDER_API_BRIDGE_LENGTH = 18 := rfl

theorem jsonFormatLength_eq : DEFENDER_API_JSON_REPORT_FORMAT_LENGTH = 4 := rfl

theorem cborFormatLength_eq : DEFENDER_API_CBOR_REPORT_FORMAT_LENGTH = 4 := rfl

theorem acceptedLength_eq : DEFENDER_API_ACCEPTED_SUFFIX_LENGTH = 9 := rfl

theorem rejectedLength_eq : DEFENDER_API_REJECTED_SUFFIX_LENGTH = 9 := rfl

theorem nullSuffixLength_eq : DEFENDER_API_NULL_SUFFIX_LENGTH = 0 := rfl

theorem wfsLength_jsonPublish :
    (writeFormatAndSuffix DefenderTopic.DefenderJsonReportPublish).length = 4 := rfl

theorem wfsLength_jsonAccepted :
    (writeFormatAndSuffix DefenderTopic.DefenderJsonReportAccepted).length = 13 := rfl

theorem wfsLength_jsonRejected :
    (writeFormatAndSuffix DefenderTopic.DefenderJsonReportRejected).length = 13 := rfl

theorem wfsLength_cborPublish :
    (writeFormatAndSuffix DefenderTopic.DefenderCborReportPublish).length = 4 := rfl

theorem wfsLength_cborAccepted :
    (writeFormatAndSuffix DefenderTopic.DefenderCborReportAccepted).length = 13 := rfl

theorem wfsLength_cborRejected :
    (writeFormatAndSuffix DefenderTopic.DefenderCborReportRejected).length = 13 := rfl

/-! ### Facts about valid api values -/

theorem valid_api_int_bounds (api : DefenderTopic) (h : api.isValid = true) :
    ¬(api.toInt ≤ DefenderTopic.toInt DefenderTopic.DefenderInvalidTopic) ∧
    ¬(DefenderTopic.toInt DefenderTopic.DefenderMaxTopic ≤ api.toInt) := by
  cases api <;> first | exact absurd h (by decide) | exact ⟨by decide, by decide⟩

/-- For a valid api, `getTopicLength` is the prefix length plus the thing-name
length plus the bridge length plus the length of the written format+suffix. -/
theorem getTopicLength_eq (n : Nat) (api : DefenderTopic) (h : api.isValid = true) :
    getTopicLength n api =
      DEFENDER_API_PREFIX_LENGTH + n + DEFENDER_API_BRIDGE_LENGTH +
        (writeFormatAndSuffix api).length := by
  cases api <;>
    first
      | exact absurd h (by decide)
      | simp only [getTopicLength, DEFENDER_API_JSON_REPORT_PUBLISH_LENGTH,
          DEFENDER_API_JSON_REPORT_ACCEPTED_LENGTH, DEFENDER_API_JSON_REPORT_REJECTED_LENGTH,
          DEFENDER_API_CBOR_REPORT_PUBLISH_LENGTH, DEFENDER_API_CBOR_REPORT_ACCEPTED_LENGTH,
          DEFENDER_API_CBOR_REPORT_REJECTED_LENGTH, DEFENDER_API_COMMON_LENGTH,
          prefixLength_eq, bridgeLength_eq, jsonFormatLength_eq, cborFormatLength_eq,
          acceptedLength_eq, rejectedLength_eq, nullSuffixLength_eq,
          wfsLength_jsonPublish, wfsLength_jsonAccepted, wfsLength_jsonRejected,
          wfsLength_cborPublish, wfsLength_cborAccepted, wfsLength_cborRejected]

/-! ### List helper lemmas -/

theorem takeWhile_append_all (p : Char → Bool) :
    ∀ (l1 l2 : List Char), (∀ c ∈ l1, p c = true) →
      (l1 ++ l2).takeWhile p = l1 ++ l2.takeWhile p := by
  intro l1
  induction l1 with
  | nil => intro l2 _; rfl
  | cons a l ih =>
      intro l2 h
      have ha : p a = true := h a (List.mem_cons_self a l)
      simp only [List.cons_append, List.takeWhile_cons, ha, ite_true]
      rw [ih l2 (fun c hc => h c (List.mem_cons_of_mem a hc))]

theorem takeWhile_bridge_append (l : List Char) :
    (DEFENDER_API_BRIDGE ++ l).takeWhile (fun c => c != '/') = [] := rfl

/-! ### Stage-level lemmas for well-formed topics -/

theorem matchPrefixStage_append (rest : List Char) :
    matchPrefixStage (DEFENDER_API_PREFIX_CHARS ++ rest)
      (DEFENDER_API_PREFIX_CHARS ++ rest).length = DefenderStatus.DefenderSuccess := by
  unfold matchPrefixStage
  rw [if_pos]
  exact ⟨by rw [List.length_append]; exact Nat.le_add_right _ _,
         List.take_left DEFENDER_API_PREFIX_CHARS rest⟩

theorem matchBridge_append (rest : List Char) :
    matchBridge (DEFENDER_API_BRIDGE ++ rest)
      (DEFENDER_API_BRIDGE ++ rest).length = DefenderStatus.DefenderSuccess := by
  unfold matchBridge
  rw [if_pos]
  exact ⟨by rw [List.length_append]; exact Nat.le_add_right _ _,
         List.take_left DEFENDER_API_BRIDGE rest⟩

theorem extractThingNameLength_append (id rest : List Char) (hne : id ≠ [])
    (hs : ∀ c ∈ id, (c != '/') = true) :
    extractThingNameLength (id ++ (DEFENDER_API_BRIDGE ++ rest))
      (id ++ (DEFENDER_API_BRIDGE ++ rest)).length = some id.length := by
  unfold extractThingNameLength
  rw [List.take_length, takeWhile_append_all _ id _ hs, takeWhile_bridge_append,
    List.append_nil]
  rw [if_pos (List.length_pos.mpr hne)]

theorem matchApi_writeFormatAndSuffix (api : DefenderTopic) (h : api.isValid = true) :
    matchApi (writeFormatAndSuffix api) (writeFormatAndSuffix api).length = some api := by
  cases api <;> first | exact absurd h (by decide) | decide

/-- Reduction of `Defender_MatchTopic` on a topic of the shape
`"$aws/things/" ++ id ++ "/defender/metrics/" ++ rest` with `id` a non-empty
slash-free segment: the first three stages succeed and the result is decided
by `matchApi` on `rest`. -/
theorem matchTopic_structured (id rest : List Char) (hne : id ≠ [])
    (hs : ∀ c ∈ id, (c != '/') = true) (oa : DefenderTopic) (ot ol : Nat) :
    Defender_MatchTopic
        (some (DEFENDER_API_PREFIX_CHARS ++ id ++ DEFENDER_API_BRIDGE ++ rest))
        (DEFENDER_API_PREFIX_CHARS ++ id ++ DEFENDER_API_BRIDGE ++ rest).length
        true oa true ot true ol =
      match matchApi rest rest.length with
      | some api =>
          { ret := DefenderStatus.DefenderSuccess, outApi := api,
            outThingNameOffset := DEFENDER_API_PREFIX_LENGTH,
            outThingNameLength := id.length }
      | none => noMatchOutput ot ol := by
  have hpre : matchPrefixStage
      (DEFENDER_API_PREFIX_CHARS ++ (id ++ (DEFENDER_API_BRIDGE ++ rest)))
      (DEFENDER_API_PREFIX_CHARS ++ (id ++ (DEFENDER_API_BRIDGE ++ rest))).length =
      DefenderStatus.DefenderSuccess :=
    matchPrefixStage_append (id ++ (DEFENDER_API_BRIDGE ++ rest))
  have hdrop1 : (DEFENDER_API_PREFIX_CHARS ++
      (id ++ (DEFENDER_API_BRIDGE ++ rest))).drop DEFENDER_API_PREFIX_LENGTH =
      id ++ (DEFENDER_API_BRIDGE ++ rest) := List.drop_left' rfl
  have hlen1 : (DEFENDER_API_PREFIX_CHARS ++
      (id ++ (DEFENDER_API_BRIDGE ++ rest))).length - DEFENDER_API_PREFIX_LENGTH =
      (id ++ (DEFENDER_API_BRIDGE ++ rest)).length := by
    simp only [List.length_append, DEFENDER_API_PREFIX_LENGTH]; omega
  have hext : extractThingNameLength (id ++ (DEFENDER_API_BRIDGE ++ rest))
      (id ++ (DEFENDER_API_BRIDGE ++ rest)).length = some id.length :=
    extractThingNameLength_append id rest hne hs
  have hdrop2 : (id ++ (DEFENDER_API_BRIDGE ++ rest)).drop id.length =
      DEFENDER_API_BRIDGE ++ rest := List.drop_left' rfl
  have hlen2 : (id ++ (DEFENDER_API_BRIDGE ++ rest)).length - id.length =
      (DEFENDER_API_BRIDGE ++ rest).length := by
    simp only [List.length_append]; omega
  have hbr : matchBridge (DEFENDER_API_BRIDGE ++ rest)
      (DEFENDER_API_BRIDGE ++ rest).length = DefenderStatus.DefenderSuccess :=
    matchBridge_append rest
  have hdrop3 : (DEFENDER_API_BRIDGE ++ rest).drop DEFENDER_API_BRIDGE_LENGTH = rest :=
    List.drop_left' rfl
  have hlen3 : (DEFENDER_API_BRIDGE ++ rest).length - DEFENDER_API_BRIDGE_LENGTH =
      rest.length := by
    simp only [List.length_append, DEFENDER_API_BRIDGE_LENGTH]; omega
  rw [show DEFENDER_API_PREFIX_CHARS ++ id ++ DEFENDER_API_BRIDGE ++ rest =
    DEFENDER_API_PREFIX_CHARS ++ (id ++ (DEFENDER_API_BRIDGE ++ rest)) from by
      simp [List.append_assoc]]
  simp only [Defender_MatchTopic, Option.getD_some, hpre, hdrop1, hlen1, hext,
    hdrop2, hlen2, hbr, hdrop3, hlen3, ne_eq, not_true_eq_false, if_false,
    ite_true, ite_false, reduceCtorEq, false_or, not_false_eq_true,
    Bool.true_eq_false, or_self]
  cases matchApi rest rest.length <;> rfl

/-! ### Build-side helper lemmas -/

theorem writeAt_zero (b d : List Char) : writeAt b 0 d = d ++ b.drop d.length := by
  simp [writeAt]

theorem writeAt_append (pre suf d : List Char) (off : Nat) (hoff : pre.length = off) :
    writeAt (pre ++ suf) off d = pre ++ d ++ suf.drop d.length := by
  subst hoff
  unfold writeAt
  rw [List.take_left, ← List.drop_drop, List.drop_left]

/-- Running `Defender_GetTopic` on valid parameters and a large enough buffer: writes
the topic at the start of the buffer, leaves the tail, succeeds with the
required length. -/
theorem getTopic_success (buffer id : List Char) (bufferLength : Nat) (api : DefenderTopic)
    (hne : id ≠ []) (h2 : id.length ≤ DEFENDER_THINGNAME_MAX_LENGTH)
    (hapi : api.isValid = true)
    (hbl : getTopicLength id.length api ≤ bufferLength) (ol0 : Nat) :
    Defender_GetTopic (some buffer) bufferLength (some id) id.length api true ol0 =
      { ret := DefenderStatus.DefenderSuccess,
        buffer := some (DEFENDER_API_PREFIX_CHARS ++ id ++ DEFENDER_API_BRIDGE ++
          writeFormatAndSuffix api ++
          buffer.drop (DEFENDER_API_PREFIX_LENGTH + id.length + DEFENDER_API_BRIDGE_LENGTH +
            (writeFormatAndSuffix api).length)),
        outLength := getTopicLength id.length api } := by
  have hbounds := valid_api_int_bounds api hapi
  have hpos : 0 < id.length := List.length_pos.mpr hne
  have hcond : ¬(some buffer = none ∨ some id = none ∨ id.length = 0 ∨
      DEFENDER_THINGNAME_MAX_LENGTH < id.length ∨
      api.toInt ≤ DefenderTopic.toInt DefenderTopic.DefenderInvalidTopic ∨
      DefenderTopic.toInt DefenderTopic.DefenderMaxTopic ≤ api.toInt ∨
      (true : Bool) = false) := by
    rintro (h | h | h | h | h | h | h)
    · exact Option.noConfusion h
    · exact Option.noConfusion h
    · omega
    · omega
    · exact hbounds.1 h
    · exact hbounds.2 h
    · exact Bool.noConfusion h
  have hlt : ¬(bufferLength < getTopicLength id.length api) := by omega
  simp only [Defender_GetTopic, hcond, hlt, Option.getD_some, List.take_length,
    if_false, ite_false]
  rw [writeAt_zero,
    writeAt_append DEFENDER_API_PREFIX_CHARS _ id DEFENDER_API_PREFIX_LENGTH rfl,
    List.drop_drop,
    writeAt_append (DEFENDER_API_PREFIX_CHARS ++ id) _ DEFENDER_API_BRIDGE
      (DEFENDER_API_PREFIX_LENGTH + id.length)
      (by simp only [List.length_append, DEFENDER_API_PREFIX_LENGTH]),
    List.drop_drop,
    writeAt_append (DEFENDER_API_PREFIX_CHARS ++ id ++ DEFENDER_API_BRIDGE) _
      (writeFormatAndSuffix api)
      (DEFENDER_API_PREFIX_LENGTH + id.length + DEFENDER_API_BRIDGE_LENGTH)
      (by simp only [List.length_append, DEFENDER_API_PREFIX_LENGTH,
        DEFENDER_API_BRIDGE_LENGTH]),
    List.drop_drop]
  simp only [DEFENDER_API_PREFIX_LENGTH, DEFENDER_API_BRIDGE_LENGTH]

/-- Running `Defender_GetTopic` on valid parameters but a buffer length below the
required topic length: returns `DefenderBufferTooSmall` and writes nothing. -/
theorem getTopic_tooSmall (buffer id : List Char) (bufferLength : Nat) (api : DefenderTopic)
    (hne : id ≠ []) (h2 : id.length ≤ DEFENDER_THINGNAME_MAX_LENGTH)
    (hapi : api.isValid = true)
    (hlt : bufferLength < getTopicLength id.length api) (ol0 : Nat) :
    Defender_GetTopic (some buffer) bufferLength (some id) id.length api true ol0 =
      { ret := DefenderStatus.DefenderBufferTooSmall, buffer := some buffer,
        outLength := ol0 } := by
  have hbounds := valid_api_int_bounds api hapi
  have hpos : 0 < id.length := List.length_pos.mpr hne
  have hcond : ¬(some buffer = none ∨ some id = none ∨ id.length = 0 ∨
      DEFENDER_THINGNAME_MAX_LENGTH < id.length ∨
      api.toInt ≤ DefenderTopic.toInt DefenderTopic.DefenderInvalidTopic ∨
      DefenderTopic.toInt DefenderTopic.DefenderMaxTopic ≤ api.toInt ∨
      (true : Bool) = false) := by
    rintro (h | h | h | h | h | h | h)
    · exact Option.noConfusion h
    · exact Option.noConfusion h
    · omega
    · omega
    · exact hbounds.1 h
    · exact hbounds.2 h
    · exact Bool.noConfusion h
  simp only [Defender_GetTopic, hcond, hlt, if_false, ite_false, if_true, ite_true]

/-- The report-format column of the topic grammar: which of the two format
strings (`"json"` or `"cbor"`) `writeFormatAndSuffix` writes first for each
api (the C `default:` fallthrough shares the `DefenderCborReportRejected`
case). -/
def apiReportFormat (api : DefenderTopic) : List Char :=
  match api with
  | DefenderTopic.DefenderJsonReportPublish => DEFENDER_API_JSON_REPORT_FORMAT
  | DefenderTopic.DefenderJsonReportAccepted => DEFENDER_API_JSON_REPORT_FORMAT
  | DefenderTopic.DefenderJsonReportRejected => DEFENDER_API_JSON_REPORT_FORMAT
  | DefenderTopic.DefenderCborReportPublish => DEFENDER_API_CBOR_REPORT_FORMAT
  | DefenderTopic.DefenderCborReportAccepted => DEFENDER_API_CBOR_REPORT_FORMAT
  | _ => DEFENDER_API_CBOR_REPORT_FORMAT

/-- The suffix column of the topic grammar: which suffix (empty, `"/accepted"`
or `"/rejected"`) `writeFormatAndSuffix` writes after the format for each api
(the C `default:` fallthrough shares the `DefenderCborReportRejected` case). -/
def apiSuffix (api : DefenderTopic) : List Char :=
  match api with
  | DefenderTopic.DefenderJsonReportPublish => []
  | DefenderTopic.DefenderJsonReportAccepted => DEFENDER_API_ACCEPTED_SUFFIX
  | DefenderTopic.DefenderJsonReportRejected => DEFENDER_API_REJECTED_SUFFIX
  | DefenderTopic.DefenderCborReportPublish => []
  | DefenderTopic.DefenderCborReportAccepted => DEFENDER_API_ACCEPTED_SUFFIX
  | _ => DEFENDER_API_REJECTED_SUFFIX

theorem wfs_eq_format_append_suffix (api : DefenderTopic) :
    writeFormatAndSuffix api = apiReportFormat api ++ apiSuffix api := by
  cases api <;> decide

theorem takeWhile_eq_self_of_all (p : Char → Bool) :
    ∀ l : List Char, (∀ c ∈ l, p c = true) → l.takeWhile p = l
  | [], _ => rfl
  | a :: l, h => by
    have ha : p a = true := h a (List.mem_cons_self a l)
    simp only [List.takeWhile_cons, ha, ite_true]
    rw [takeWhile_eq_self_of_all p l (fun c hc => h c (List.mem_cons_of_mem a hc))]

/-- Soundness of the `matchApi` loop: a successful match certifies that the
remaining length equals a table entry's length and the compared bytes equal
its string. -/
theorem matchApiAux_mem (table : List (DefenderTopic × List Char × Nat))
    (rem : List Char) (n : Nat) (api : DefenderTopic)
    (h : matchApiAux table rem n = some api) :
    ∃ s len, (api, s, len) ∈ table ∧ n = len ∧ rem.take len = s := by
  induction table with
  | nil => exact absurd h (by simp [matchApiAux])
  | cons e rest ih =>
      obtain ⟨a, s, len⟩ := e
      unfold matchApiAux at h
      split at h
      · next hc =>
          obtain ⟨rfl⟩ : a = api := by injection h
          exact ⟨s, len, List.mem_cons_self _ _, hc.1, hc.2⟩
      · obtain ⟨s', len', hmem, h1, h2⟩ := ih h
        exact ⟨s', len', List.mem_cons_of_mem _ hmem, h1, h2⟩

/-- Every entry of the zipped api table satisfies: the recorded length is the
length of the recorded string. -/
theorem defenderApiTable_lengths :
    ∀ e ∈ defenderApiTable, (e.2.1).length = e.2.2 := by decide

/-- Running `Defender_MatchTopic` on a non-NULL topic and a non-NULL api output slot
either succeeds or produces exactly the no-match output. -/
theorem matchTopic_cases (topic : List Char) (tl : Nat) (oa : DefenderTopic)
    (ot ol : Nat) (p2 p3 : Bool) :
    (Defender_MatchTopic (some topic) tl true oa p2 ot p3 ol).ret =
      DefenderStatus.DefenderSuccess ∨
    Defender_MatchTopic (some topic) tl true oa p2 ot p3 ol =
      { ret := DefenderStatus.DefenderNoMatch,
        outApi := DefenderTopic.DefenderInvalidTopic,
        outThingNameOffset := ot, outThingNameLength := ol } := by
  simp only [Defender_MatchTopic, Option.getD_some, reduceCtorEq,
    Bool.true_eq_false, or_self, if_false, ite_false, false_or]
  split
  · right; rfl
  · split
    · right; rfl
    · split
      · right; rfl
      · split
        · right; rfl
        · left; rfl

/-! ### Claim theorems -/

/-- C4 counterexample: the claim asserts a written length of 42, but building
the JSON-publish topic for `"MyThing"` (even into a 42-byte buffer) writes and
reports length 41, and the literal topic string has 41 characters. -/
theorem C4_counterexample :
    ("$aws/things/MyThing/defender/metrics/json".toList).length = 41 ∧
    (Defender_GetTopic (some (List.replicate 42 ' ')) 42 (some "MyThing".toList) 7
      DefenderTopic.DefenderJsonReportPublish true 0).outLength ≠ 42 := by decide

/-- C4 (amended): `Defender_GetTopic` with thing name `"MyThing"` and the
JSON-publish variant produces exactly `"$aws/things/MyThing/defender/metrics/json"`
with written length 41 (not 42), and `Defender_MatchTopic` on that string
returns the JSON-publish variant with thing-name offset 12 and length 7. -/
theorem C4_literal_example :
    Defender_GetTopic (some (List.replicate 41 ' ')) 41 (some "MyThing".toList) 7
        DefenderTopic.DefenderJsonReportPublish true 0 =
      { ret := DefenderStatus.DefenderSuccess,
        buffer := some "$aws/things/MyThing/defender/metrics/json".toList,
        outLength := 41 } ∧
    ("$aws/things/MyThing/defender/metrics/json".toList).length = 41 ∧
    Defender_MatchTopic (some "$aws/things/MyThing/defender/metrics/json".toList) 41
        true DefenderTopic.DefenderInvalidTopic true 0 true 0 =
      { ret := DefenderStatus.DefenderSuccess,
        outApi := DefenderTopic.DefenderJsonReportPublish,
        outThingNameOffset := 12, outThingNameLength := 7 } := by decide

/-- C10: when `Defender_MatchTopic` is called with a NULL topic pointer and a
non-NULL api output slot it returns `DefenderBadParameter` and leaves the
`*pOutApi` slot (and the thing-name slots) unchanged; the invalid-topic
sentinel is written only on the `DefenderNoMatch` outcome. -/
theorem C10_badParameter_outApi_unchanged (tl : Nat) (oa : DefenderTopic) (ot ol : Nat)
    (p2 p3 : Bool) :
    Defender_MatchTopic none tl true oa p2 ot p3 ol =
      { ret := DefenderStatus.DefenderBadParameter, outApi := oa,
        outThingNameOffset := ot, outThingNameLength := ol } := rfl

/-- C9: `Defender_GetTopic` returns `DefenderBadParameter` when the output
length pointer is NULL, even when buffer, thing name, thing-name length and
api are all valid; nothing is written. -/
theorem C9_null_outLength_badParameter (buffer id : List Char) (bufferLength : Nat)
    (api : DefenderTopic) (ol0 : Nat)
    (h1 : 1 ≤ id.length) (h2 : id.length ≤ 128) (hapi : api.isValid = true) :
    Defender_GetTopic (some buffer) bufferLength (some id) id.length api false ol0 =
      { ret := DefenderStatus.DefenderBadParameter, buffer := some buffer,
        outLength := ol0 } := by
  unfold Defender_GetTopic
  rw [if_pos (Or.inr (Or.inr (Or.inr (Or.inr (Or.inr (Or.inr rfl))))))]

/-- C9 witness at a concrete valid input. -/
theorem C9_witness :
    Defender_GetTopic (some (List.replicate 41 ' ')) 41 (some "MyThing".toList)
        ("MyThing".toList).length DefenderTopic.DefenderJsonReportPublish false 7 =
      { ret := DefenderStatus.DefenderBadParameter,
        buffer := some (List.replicate 41 ' '), outLength := 7 } :=
  C9_null_outLength_badParameter (List.replicate 41 ' ') "MyThing".toList 41
    DefenderTopic.DefenderJsonReportPublish 7 (by decide) (by decide) (by decide)

/-- C8 counterexample: `"MyThing"` contains no forward slash, yet the
identifier-extraction stage does not fail: it succeeds returning the whole
remaining length 7 (the claim asserts the stage itself fails with no-match,
modelled as `none`). -/
theorem C8_counterexample :
    (∀ c ∈ "MyThing".toList, c ≠ '/') ∧
    extractThingNameLength "MyThing".toList 7 = some 7 ∧
    some 7 ≠ (none : Option Nat) := by decide

/-- C8 (amended): in the identifier stage, a slash at position 0 makes the
stage fail (`none`), and a zero remaining length makes it fail; but when the
scanned bytes contain no `/` at all and the remaining length is positive, the
stage itself succeeds with the whole remaining length as the thing-name length
(the overall match then fails later, at the bridge stage). -/
theorem C8_extract_stage_behavior :
    (∀ (rem : List Char) (n : Nat), 0 < n → n ≤ rem.length →
        (∀ c ∈ rem.take n, c ≠ '/') → extractThingNameLength rem n = some n) ∧
    (∀ (t : List Char) (n : Nat), extractThingNameLength ('/' :: t) n = none) ∧
    (∀ rem : List Char, extractThingNameLength rem 0 = none) := by
  refine ⟨?_, ?_, ?_⟩
  · intro rem n hn hle hs
    unfold extractThingNameLength
    rw [takeWhile_eq_self_of_all _ _ (fun c hc => by
      simp only [bne_iff_ne, ne_eq]
      exact hs c hc)]
    rw [List.length_take, Nat.min_eq_left hle, if_pos hn]
  · intro t n
    cases n with
    | zero => rfl
    | succ m => rfl
  · intro rem
    rfl

/-- C8 witness: the amended statement applied at concrete inputs. -/
theorem C8_witness :
    extractThingNameLength "AnotherThing".toList 12 = some 12 ∧
    extractThingNameLength ('/' :: "x".toList) 2 = none ∧
    extractThingNameLength "q".toList 0 = none :=
  ⟨C8_extract_stage_behavior.1 "AnotherThing".toList 12 (by decide) (by decide) (by decide),
   C8_extract_stage_behavior.2.1 "x".toList 2,
   C8_extract_stage_behavior.2.2 "q".toList⟩

/-- C5: with valid parameters, a buffer length exactly equal to the required
topic length succeeds, and a buffer length one byte smaller returns
`DefenderBufferTooSmall` with the buffer contents untouched. -/
theorem C5_exact_buffer_boundary (buffer id : List Char) (api : DefenderTopic) (ol0 : Nat)
    (h1 : 1 ≤ id.length) (h2 : id.length ≤ 128) (hapi : api.isValid = true)
    (hbuf : buffer.length = getTopicLength id.length api) :
    (Defender_GetTopic (some buffer) (getTopicLength id.length api) (some id) id.length
        api true ol0).ret = DefenderStatus.DefenderSuccess ∧
    Defender_GetTopic (some buffer) (getTopicLength id.length api - 1) (some id) id.length
        api true ol0 =
      { ret := DefenderStatus.DefenderBufferTooSmall, buffer := some buffer,
        outLength := ol0 } := by
  have hne : id ≠ [] := List.length_pos.mp (by omega)
  have h2' : id.length ≤ DEFENDER_THINGNAME_MAX_LENGTH := by
    unfold DEFENDER_THINGNAME_MAX_LENGTH; exact h2
  have hpos : 0 < getTopicLength id.length api := by
    rw [getTopicLength_eq id.length api hapi, prefixLength_eq, bridgeLength_eq]
    omega
  constructor
  · rw [getTopic_success buffer id (getTopicLength id.length api) api hne h2' hapi
      (Nat.le_refl _) ol0]
  · exact getTopic_tooSmall buffer id (getTopicLength id.length api - 1) api hne h2' hapi
      (by omega) ol0

/-- C5 witness at a concrete valid input. -/
theorem C5_witness :
    (Defender_GetTopic (some (List.replicate 41 ' '))
        (getTopicLength ("MyThing".toList).length DefenderTopic.DefenderJsonReportPublish)
        (some "MyThing".toList) ("MyThing".toList).length
        DefenderTopic.DefenderJsonReportPublish true 0).ret =
      DefenderStatus.DefenderSuccess ∧
    Defender_GetTopic (some (List.replicate 41 ' '))
        (getTopicLength ("MyThing".toList).length DefenderTopic.DefenderJsonReportPublish - 1)
        (some "MyThing".toList) ("MyThing".toList).length
        DefenderTopic.DefenderJsonReportPublish true 0 =
      { ret := DefenderStatus.DefenderBufferTooSmall,
        buffer := some (List.replicate 41 ' '), outLength := 0 } :=
  C5_exact_buffer_boundary (List.replicate 41 ' ') "MyThing".toList
    DefenderTopic.DefenderJsonReportPublish 0 (by decide) (by decide) (by decide) (by decide)

/-- C7: whenever `Defender_MatchTopic` returns `DefenderNoMatch` (non-NULL
topic, non-NULL api output slot), the api output slot is set to the
invalid-topic sentinel and the thing-name offset and length slots keep their
initial values. -/
theorem C7_noMatch_frame (topic : List Char) (tl : Nat) (oa : DefenderTopic)
    (ot ol : Nat) (p2 p3 : Bool)
    (h : (Defender_MatchTopic (some topic) tl true oa p2 ot p3 ol).ret =
      DefenderStatus.DefenderNoMatch) :
    Defender_MatchTopic (some topic) tl true oa p2 ot p3 ol =
      { ret := DefenderStatus.DefenderNoMatch,
        outApi := DefenderTopic.DefenderInvalidTopic,
        outThingNameOffset := ot, outThingNameLength := ol } := by
  rcases matchTopic_cases topic tl oa ot ol p2 p3 with hsucc | heq
  · rw [h] at hsucc
    exact absurd hsucc (by decide)
  · exact heq

/-- C7 witness: a topic missing the bridge and variant parts. -/
theorem C7_witness :
    Defender_MatchTopic (some "$aws/things/MyThing".toList) 19 true
        DefenderTopic.DefenderJsonReportPublish true 3 true 4 =
      { ret := DefenderStatus.DefenderNoMatch,
        outApi := DefenderTopic.DefenderInvalidTopic,
        outThingNameOffset := 3, outThingNameLength := 4 } :=
  C7_noMatch_frame "$aws/things/MyThing".toList 19
    DefenderTopic.DefenderJsonReportPublish 3 4 true true (by decide)

/-- C1 counterexample: the identifier `"a/b"` has length 3 (within `[1,128]`)
and the JSON-publish variant is valid, `Defender_GetTopic` builds the topic
successfully, yet `Defender_MatchTopic` on the built string returns
`DefenderNoMatch` instead of the success-with-round-trip the claim asserts:
the claim fails for identifiers containing a forward slash. -/
theorem C1_counterexample :
    1 ≤ ("a/b".toList).length ∧ ("a/b".toList).length ≤ 128 ∧
    DefenderTopic.isValid DefenderTopic.DefenderJsonReportPublish = true ∧
    Defender_GetTopic (some (List.replicate 37 ' ')) 37 (some "a/b".toList) 3
        DefenderTopic.DefenderJsonReportPublish true 0 =
      { ret := DefenderStatus.DefenderSuccess,
        buffer := some "$aws/things/a/b/defender/metrics/json".toList,
        outLength := 37 } ∧
    (Defender_MatchTopic (some "$aws/things/a/b/defender/metrics/json".toList) 37
        true DefenderTopic.DefenderInvalidTopic true 0 true 0).ret =
      DefenderStatus.DefenderNoMatch := by decide

/-- C1 (amended): the build/match round-trip holds for every identifier of
length 1 to 128 that contains no forward slash: building the topic and
matching the written string yields success, the original variant, thing-name
offset 12 and thing-name length `len(id)`, with the identifier bytes at that
offset. -/
theorem C1_roundtrip_slash_free (id : List Char) (api : DefenderTopic)
    (buffer : List Char)
    (h1 : 1 ≤ id.length) (h2 : id.length ≤ 128) (hs : ∀ c ∈ id, c ≠ '/')
    (hapi : api.isValid = true)
    (hbl : getTopicLength id.length api ≤ buffer.length) :
    ∃ written : List Char,
      (Defender_GetTopic (some buffer) buffer.length (some id) id.length api
        true 0).ret = DefenderStatus.DefenderSuccess ∧
      (Defender_GetTopic (some buffer) buffer.length (some id) id.length api
        true 0).buffer = some written ∧
      (Defender_GetTopic (some buffer) buffer.length (some id) id.length api
        true 0).outLength = getTopicLength id.length api ∧
      Defender_MatchTopic (some (written.take (getTopicLength id.length api)))
          (written.take (getTopicLength id.length api)).length
          true DefenderTopic.DefenderInvalidTopic true 0 true 0 =
        { ret := DefenderStatus.DefenderSuccess, outApi := api,
          outThingNameOffset := 12, outThingNameLength := id.length } ∧
      ((written.take (getTopicLength id.length api)).drop 12).take id.length = id := by
  have hne : id ≠ [] := List.length_pos.mp (by omega)
  have h2' : id.length ≤ DEFENDER_THINGNAME_MAX_LENGTH := by
    unfold DEFENDER_THINGNAME_MAX_LENGTH; exact h2
  have hs' : ∀ c ∈ id, (c != '/') = true := fun c hc => by
    simp only [bne_iff_ne, ne_eq]; exact hs c hc
  have hlen4 : (DEFENDER_API_PREFIX_CHARS ++ id ++ DEFENDER_API_BRIDGE ++
      writeFormatAndSuffix api).length = getTopicLength id.length api := by
    rw [getTopicLength_eq id.length api hapi]
    simp only [List.length_append, DEFENDER_API_PREFIX_LENGTH, DEFENDER_API_BRIDGE_LENGTH]
  rw [getTopic_success buffer id buffer.length api hne h2' hapi hbl 0]
  refine ⟨_, rfl, rfl, rfl, ?_, ?_⟩
  · rw [List.take_left' hlen4]
    rw [matchTopic_structured id (writeFormatAndSuffix api) hne hs'
      DefenderTopic.DefenderInvalidTopic 0 0,
      matchApi_writeFormatAndSuffix api hapi]
    rfl
  · rw [List.take_left' hlen4]
    rw [show DEFENDER_API_PREFIX_CHARS ++ id ++ DEFENDER_API_BRIDGE ++
        writeFormatAndSuffix api =
        DEFENDER_API_PREFIX_CHARS ++ (id ++ (DEFENDER_API_BRIDGE ++
          writeFormatAndSuffix api)) from by simp [List.append_assoc]]
    rw [List.drop_left' (by decide : DEFENDER_API_PREFIX_CHARS.length = 12)]
    exact List.take_left id (DEFENDER_API_BRIDGE ++ writeFormatAndSuffix api)

/-- C1 witness: the amended round-trip applied at a concrete input. -/
theorem C1_witness :
    ∃ written : List Char,
      (Defender_GetTopic (some (List.replicate 50 '!')) (List.replicate 50 '!').length
        (some "MyThing".toList) ("MyThing".toList).length
        DefenderTopic.DefenderCborReportRejected true 0).ret =
        DefenderStatus.DefenderSuccess ∧
      (Defender_GetTopic (some (List.replicate 50 '!')) (List.replicate 50 '!').length
        (some "MyThing".toList) ("MyThing".toList).length
        DefenderTopic.DefenderCborReportRejected true 0).buffer = some written ∧
      (Defender_GetTopic (some (List.replicate 50 '!')) (List.replicate 50 '!').length
        (some "MyThing".toList) ("MyThing".toList).length
        DefenderTopic.DefenderCborReportRejected true 0).outLength =
        getTopicLength ("MyThing".toList).length DefenderTopic.DefenderCborReportRejected ∧
      Defender_MatchTopic
          (some (written.take (getTopicLength ("MyThing".toList).length
            DefenderTopic.DefenderCborReportRejected)))
          (written.take (getTopicLength ("MyThing".toList).length
            DefenderTopic.DefenderCborReportRejected)).length
          true DefenderTopic.DefenderInvalidTopic true 0 true 0 =
        { ret := DefenderStatus.DefenderSuccess,
          outApi := DefenderTopic.DefenderCborReportRejected,
          outThingNameOffset := 12,
          outThingNameLength := ("MyThing".toList).length } ∧
      ((written.take (getTopicLength ("MyThing".toList).length
        DefenderTopic.DefenderCborReportRejected)).drop 12).take
        ("MyThing".toList).length = "MyThing".toList :=
  C1_roundtrip_slash_free "MyThing".toList DefenderTopic.DefenderCborReportRejected
    (List.replicate 50 '!') (by decide) (by decide) (by decide) (by decide) (by decide)

/-- C2: whenever `Defender_GetTopic` succeeds on a thing name of length 1 to
128 and a valid variant, the first `requiredLength` bytes of the buffer are,
in order, the prefix, the identifier bytes verbatim, the bridge, and the
variant's format+suffix string; the output length equals the required length,
which is `prefixLen + identifierLen + bridgeLen + formatLen + suffixLen`. -/
theorem C2_build_layout (buffer id : List Char) (bufferLength : Nat)
    (api : DefenderTopic) (ol0 : Nat)
    (hbuf : buffer.length = bufferLength)
    (h1 : 1 ≤ id.length) (h2 : id.length ≤ 128) (hapi : api.isValid = true)
    (hret : (Defender_GetTopic (some buffer) bufferLength (some id) id.length api
      true ol0).ret = DefenderStatus.DefenderSuccess) :
    ∃ written : List Char,
      (Defender_GetTopic (some buffer) bufferLength (some id) id.length api
        true ol0).buffer = some written ∧
      written.take (getTopicLength id.length api) =
        DEFENDER_API_PREFIX_CHARS ++ id ++ DEFENDER_API_BRIDGE ++
          (apiReportFormat api ++ apiSuffix api) ∧
      (Defender_GetTopic (some buffer) bufferLength (some id) id.length api
        true ol0).outLength = getTopicLength id.length api ∧
      getTopicLength id.length api =
        DEFENDER_API_PREFIX_LENGTH + id.length + DEFENDER_API_BRIDGE_LENGTH +
          (apiReportFormat api).length + (apiSuffix api).length := by
  have hne : id ≠ [] := List.length_pos.mp (by omega)
  have h2' : id.length ≤ DEFENDER_THINGNAME_MAX_LENGTH := by
    unfold DEFENDER_THINGNAME_MAX_LENGTH; exact h2
  by_cases hbl : getTopicLength id.length api ≤ bufferLength
  · have hlen4 : (DEFENDER_API_PREFIX_CHARS ++ id ++ DEFENDER_API_BRIDGE ++
        writeFormatAndSuffix api).length = getTopicLength id.length api := by
      rw [getTopicLength_eq id.length api hapi]
      simp only [List.length_append, DEFENDER_API_PREFIX_LENGTH,
        DEFENDER_API_BRIDGE_LENGTH]
    rw [getTopic_success buffer id bufferLength api hne h2' hapi hbl ol0]
    refine ⟨_, rfl, ?_, rfl, ?_⟩
    · rw [List.take_left' hlen4, wfs_eq_format_append_suffix api]
    · rw [getTopicLength_eq id.length api hapi, wfs_eq_format_append_suffix api]
      simp only [List.length_append]
      omega
  · exfalso
    rw [getTopic_tooSmall buffer id bufferLength api hne h2' hapi (by omega) ol0] at hret
    simp at hret

/-- C2 witness at a concrete valid input. -/
theorem C2_witness :
    ∃ written : List Char,
      (Defender_GetTopic (some (List.replicate 41 ' ')) 41 (some "MyThing".toList)
        ("MyThing".toList).length DefenderTopic.DefenderJsonReportPublish
        true 0).buffer = some written ∧
      written.take (getTopicLength ("MyThing".toList).length
          DefenderTopic.DefenderJsonReportPublish) =
        DEFENDER_API_PREFIX_CHARS ++ "MyThing".toList ++ DEFENDER_API_BRIDGE ++
          (apiReportFormat DefenderTopic.DefenderJsonReportPublish ++
            apiSuffix DefenderTopic.DefenderJsonReportPublish) ∧
      (Defender_GetTopic (some (List.replicate 41 ' ')) 41 (some "MyThing".toList)
        ("MyThing".toList).length DefenderTopic.DefenderJsonReportPublish
        true 0).outLength =
        getTopicLength ("MyThing".toList).length
          DefenderTopic.DefenderJsonReportPublish ∧
      getTopicLength ("MyThing".toList).length
          DefenderTopic.DefenderJsonReportPublish =
        DEFENDER_API_PREFIX_LENGTH + ("MyThing".toList).length +
          DEFENDER_API_BRIDGE_LENGTH +
          (apiReportFormat DefenderTopic.DefenderJsonReportPublish).length +
          (apiSuffix DefenderTopic.DefenderJsonReportPublish).length :=
  C2_build_layout (List.replicate 41 ' ') "MyThing".toList 41
    DefenderTopic.DefenderJsonReportPublish 0 (by decide) (by decide) (by decide)
    (by decide) (by decide)

/-- C3: the matcher does not enforce the 128-byte identifier maximum that the
builder enforces: a topic whose identifier segment is longer than 128 bytes
(slash-free, total length still within the `uint16_t` range) matches
successfully with the full identifier length reported. -/
theorem C3_matcher_accepts_long_identifiers (id : List Char) (api : DefenderTopic)
    (h129 : 128 < id.length) (hs : ∀ c ∈ id, c ≠ '/') (hapi : api.isValid = true)
    (hlen : (DEFENDER_API_PREFIX_CHARS ++ id ++ DEFENDER_API_BRIDGE ++
      writeFormatAndSuffix api).length ≤ 65535) :
    Defender_MatchTopic
        (some (DEFENDER_API_PREFIX_CHARS ++ id ++ DEFENDER_API_BRIDGE ++
          writeFormatAndSuffix api))
        (DEFENDER_API_PREFIX_CHARS ++ id ++ DEFENDER_API_BRIDGE ++
          writeFormatAndSuffix api).length
        true DefenderTopic.DefenderInvalidTopic true 0 true 0 =
      { ret := DefenderStatus.DefenderSuccess, outApi := api,
        outThingNameOffset := 12, outThingNameLength := id.length } := by
  have hne : id ≠ [] := List.length_pos.mp (by omega)
  have hs' : ∀ c ∈ id, (c != '/') = true := fun c hc => by
    simp only [bne_iff_ne, ne_eq]; exact hs c hc
  rw [matchTopic_structured id (writeFormatAndSuffix api) hne hs'
    DefenderTopic.DefenderInvalidTopic 0 0,
    matchApi_writeFormatAndSuffix api hapi]
  rfl

/-- C3 witness: a 129-byte identifier still matches. -/
theorem C3_witness :
    Defender_MatchTopic
        (some (DEFENDER_API_PREFIX_CHARS ++ List.replicate 129 'a' ++
          DEFENDER_API_BRIDGE ++
          writeFormatAndSuffix DefenderTopic.DefenderCborReportAccepted))
        (DEFENDER_API_PREFIX_CHARS ++ List.replicate 129 'a' ++
          DEFENDER_API_BRIDGE ++
          writeFormatAndSuffix DefenderTopic.DefenderCborReportAccepted).length
        true DefenderTopic.DefenderInvalidTopic true 0 true 0 =
      { ret := DefenderStatus.DefenderSuccess,
        outApi := DefenderTopic.DefenderCborReportAccepted,
        outThingNameOffset := 12,
        outThingNameLength := (List.replicate 129 'a').length } :=
  C3_matcher_accepts_long_identifiers (List.replicate 129 'a')
    DefenderTopic.DefenderCborReportAccepted (by decide) (by decide) (by decide)
    (by decide)

/-- C6: the variant stage accepts only an exact (length and content) match
against one of the six table strings, and in particular a topic ending in
`"json2"` after the bridge yields no-match with the invalid-topic sentinel
written and the thing-name slots untouched. -/
theorem C6_variant_exactness :
    (∀ (rem : List Char) (n : Nat) (api : DefenderTopic),
        matchApi rem n = some api →
        ∃ s : List Char, (api, s, n) ∈ defenderApiTable ∧ n = s.length ∧
          rem.take n = s) ∧
    (∀ T : List Char, T ≠ [] → (∀ c ∈ T, c ≠ '/') →
        ∀ (oa : DefenderTopic) (ot ol : Nat),
          Defender_MatchTopic
              (some (DEFENDER_API_PREFIX_CHARS ++ T ++ DEFENDER_API_BRIDGE ++
                "json2".toList))
              (DEFENDER_API_PREFIX_CHARS ++ T ++ DEFENDER_API_BRIDGE ++
                "json2".toList).length true oa true ot true ol =
            { ret := DefenderStatus.DefenderNoMatch,
              outApi := DefenderTopic.DefenderInvalidTopic,
              outThingNameOffset := ot, outThingNameLength := ol }) := by
  constructor
  · intro rem n api h
    obtain ⟨s, len, hmem, hn, htake⟩ := matchApiAux_mem defenderApiTable rem n api h
    subst hn
    exact ⟨s, hmem, (defenderApiTable_lengths _ hmem).symm, htake⟩
  · intro T hne hs oa ot ol
    have hs' : ∀ c ∈ T, (c != '/') = true := fun c hc => by
      simp only [bne_iff_ne, ne_eq]; exact hs c hc
    rw [matchTopic_structured T "json2".toList hne hs' oa ot ol,
      show matchApi "json2".toList ("json2".toList).length = none from by decide]
    rfl

/-- C6 witness: an exact variant match certificate and a concrete `"json2"`
rejection. -/
theorem C6_witness :
    (∃ s : List Char,
        (DefenderTopic.DefenderCborReportAccepted, s, 13) ∈ defenderApiTable ∧
        (13 : Nat) = s.length ∧ ("cbor/accepted".toList).take 13 = s) ∧
    Defender_MatchTopic
        (some (DEFENDER_API_PREFIX_CHARS ++ "T".toList ++ DEFENDER_API_BRIDGE ++
          "json2".toList))
        (DEFENDER_API_PREFIX_CHARS ++ "T".toList ++ DEFENDER_API_BRIDGE ++
          "json2".toList).length true DefenderTopic.DefenderInvalidTopic true 5 true 6 =
      { ret := DefenderStatus.DefenderNoMatch,
        outApi := DefenderTopic.DefenderInvalidTopic,
        outThingNameOffset := 5, outThingNameLength := 6 } :=
  ⟨C6_variant_exactness.1 "cbor/accepted".toList 13
      DefenderTopic.DefenderCborReportAccepted (by decide),
   C6_variant_exactness.2 "T".toList (by decide) (by decide)
      DefenderTopic.DefenderInvalidTopic 5 6⟩
